import Mathlib

/-!
Shallow embedding of the pipeline-bootstrap `Environment` class
(`samcli/lib/pipeline/bootstrap/environment.py`) and of the resource
descriptors it orchestrates.  Python `Optional[str]` fields become
`Option String`; Python truthiness of such a field (`if x:`) becomes
`optTruthy`; the provisioning backend (`manage_stack`) and the secrets
backend are modelled as oracle functions passed to `bootstrap`; the
configuration store (`SamConfig.put`) is modelled by recording the list
of `put` calls that `save_config` performs.
-/

/-- Python truthiness of an `Optional[str]` value: `None` and `""` are
falsy, every other string is truthy. -/
def optTruthy : Option String → Bool
  | none => false
  | some s => !s.isEmpty

/-- Resource descriptor.  The class itself lives in the (absent)
`samcli/lib/pipeline/bootstrap/resource.py`; the fields are the ones the
spec describes and `environment.py` uses: an optional identifier `arn`,
a human-readable `comment`, and the flag `is_user_provided`. -/
structure Resource where
  arn : Option String
  comment : String
  is_user_provided : Bool
deriving Repr, DecidableEq

/-- Modelled from the spec: `Resource` construction in the missing
`resource.py` derives `is_user_provided = identifier is non-empty at
construction time`. -/
def Resource.make (a : Option String) (c : String) : Resource :=
  { arn := a, comment := c, is_user_provided := optTruthy a }

/-- Splitting a character list on a separator character, the semantics
of Python `str.split(sep)` for a one-character separator. -/
def splitOnChar (sep : Char) : List Char → List (List Char)
  | [] => [[]]
  | c :: rest =>
    let r := splitOnChar sep rest
    if c = sep then [] :: r
    else (c :: r.headD []) :: r.tail

/-- The colon-delimited segments of an identifier (`arn.split(":")`). -/
def arnParts (a : String) : List String :=
  (splitOnChar (Char.ofNat 58) a.data).map String.mk

/-- Modelled from the spec: `Resource.name()` of the missing
`resource.py` parses the identifier expecting an ARN-like shape
`<namespace>:<separator-delimited-fields>:<resource-name>` and returns
the trailing resource-name segment; it fails with
`InvalidIdentifierError` (a `ValueError`) when the identifier is
empty/unset or does not contain the expected number of colon-delimited
segments (six, as in the spec example `arn:aws:s3:::my-bucket`). -/
def Resource.name (r : Resource) : Except String String :=
  match r.arn with
  | none => Except.error "InvalidIdentifierError"
  | some a =>
    if a.isEmpty then Except.error "InvalidIdentifierError"
    else
      let parts := arnParts a
      if parts.length == 6 then Except.ok (parts.getLastD "")
      else Except.error "InvalidIdentifierError"

/-- IAM user descriptor: a `Resource` plus the derived credential pair,
populated only after provisioning (`resource.py` subclass `IAMUser`). -/
structure IAMUser extends Resource where
  access_key_id : Option String
  secret_access_key : Option String
deriving Repr, DecidableEq

/-- Modelled from the spec: `IAMUser` construction; credentials start
unset. -/
def IAMUser.make (a : Option String) (c : String) : IAMUser :=
  { Resource.make a c with access_key_id := none, secret_access_key := none }

/-- ECR image repository descriptor (`resource.py` subclass
`ECRImageRepository`). -/
structure ECRImageRepository extends Resource where
deriving Repr, DecidableEq

/-- Modelled from the spec: `ECRImageRepository` construction. -/
def ECRImageRepository.make (a : Option String) (c : String) : ECRImageRepository :=
  { Resource.make a c with }

/-- Modelled from the spec: `ECRImageRepository.get_uri()` of the
missing `resource.py` parses the identifier the same way and builds the
composite address `<account>.dkr.ecr.<region>.amazonaws.com/<repository-name>`,
failing with `InvalidIdentifierError` on malformed input.  Per the spec
example, `arn:aws:ecr:us-east-1:123456789012:repository/my-repo` yields
`123456789012.dkr.ecr.us-east-1.amazonaws.com/my-repo`: region and
account are the fourth and fifth colon-delimited segments and the repo
name follows the `repository/` marker in the last one. -/
def ECRImageRepository.get_uri (r : ECRImageRepository) : Except String String :=
  match r.arn with
  | none => Except.error "InvalidIdentifierError"
  | some a =>
    if a.isEmpty then Except.error "InvalidIdentifierError"
    else
      let parts := arnParts a
      if parts.length == 6
          && "repository/".data.isPrefixOf (parts.getLastD "").data then
        Except.ok ((parts.getD 4 "") ++ ".dkr.ecr." ++ (parts.getD 3 "")
          ++ ".amazonaws.com/" ++ String.mk ((parts.getLastD "").data.drop 11))
      else Except.error "InvalidIdentifierError"

/-- Configuration keys written by `save_config`
(`environment.py` module-level constants). -/
def PIPELINE_USER : String := "pipeline_user"

def PIPELINE_EXECUTION_ROLE : String := "pipeline_execution_role"

def CLOUDFORMATION_EXECUTION_ROLE : String := "cloudformation_execution_role"

def ARTIFACTS_BUCKET : String := "artifacts_bucket"

def ECR_IMAGE_REPOSITORY : String := "image_repository"

def REGION : String := "region"

/-- The `Environment` class of `environment.py`. -/
structure Environment where
  name : String
  aws_profile : Option String
  aws_region : Option String
  pipeline_user : IAMUser
  pipeline_execution_role : Resource
  cloudformation_execution_role : Resource
  artifacts_bucket : Resource
  create_image_repository : Bool
  image_repository : ECRImageRepository
deriving Repr, DecidableEq

/-- `Environment.__init__`: builds the five descriptors from the
optionally supplied ARNs, with the comments used in the source. -/
def Environment.make (name : String) (aws_profile aws_region : Option String)
    (pipeline_user_arn pipeline_execution_role_arn
      cloudformation_execution_role_arn artifacts_bucket_arn : Option String)
    (create_image_repository : Bool) (image_repository_arn : Option String) :
    Environment :=
  { name := name
    aws_profile := aws_profile
    aws_region := aws_region
    pipeline_user := IAMUser.make pipeline_user_arn "Pipeline IAM user"
    pipeline_execution_role := Resource.make pipeline_execution_role_arn "Pipeline execution role"
    cloudformation_execution_role :=
      Resource.make cloudformation_execution_role_arn "CloudFormation execution role"
    artifacts_bucket := Resource.make artifacts_bucket_arn "Artifact bucket"
    create_image_repository := create_image_repository
    image_repository := ECRImageRepository.make image_repository_arn "ECR image repository" }

/-- `Environment._get_resources`: the four required descriptors, plus
the image repository when `create_image_repository` is set or its ARN
is truthy (`self.create_image_repository or self.image_repository.arn`). -/
def Environment.get_resources (e : Environment) : List Resource :=
  [e.pipeline_user.toResource,
   e.pipeline_execution_role,
   e.cloudformation_execution_role,
   e.artifacts_bucket]
  ++ (if e.create_image_repository || optTruthy e.image_repository.arn
      then [e.image_repository.toResource] else [])

/-- `Environment.did_user_provide_all_required_resources`:
`all(resource.is_user_provided for resource in self._get_resources())`. -/
def Environment.did_user_provide_all_required_resources (e : Environment) : Bool :=
  e.get_resources.all fun r => r.is_user_provided

/-- Claim-side predicate for C1, written from the claim text: every
participating descriptor has `is_user_provided = true`, the
image-repository descriptor participating only if
`create_image_repository` is true or its identifier is already set
(non-empty). -/
def allParticipatingProvided (e : Environment) : Prop :=
  e.pipeline_user.is_user_provided = true
  ∧ e.pipeline_execution_role.is_user_provided = true
  ∧ e.cloudformation_execution_role.is_user_provided = true
  ∧ e.artifacts_bucket.is_user_provided = true
  ∧ ((e.create_image_repository = true ∨ optTruthy e.image_repository.arn = true) →
      e.image_repository.is_user_provided = true)

/-- One recorded call to `SamConfig.put(cmd_names, section, key, value, env)`.
`env = none` models a call that did not pass the `env` argument
(so `SamConfig`'s default scope applies, not the environment name). -/
structure PutCall where
  cmd_names : List String
  sect : String
  key : String
  value : String
  env : Option String
deriving Repr, DecidableEq

/-- The `artifacts_bucket_name` computation of `save_config`: the
`name()` call with its `except ValueError` handler substituting the
empty string. -/
def bucketNameOrEmpty (e : Environment) : String :=
  match e.artifacts_bucket.name with
  | Except.ok n => n
  | Except.error _ => ""

/-- The `image_repository_uri` computation of `save_config`: the
`get_uri()` call with its `except ValueError` handler substituting the
empty string. -/
def repoUriOrEmpty (e : Environment) : String :=
  match e.image_repository.get_uri with
  | Except.ok u => u
  | Except.error _ => ""

/-- `Environment.save_config`: the sequence of `put` calls made to the
configuration store.  The `name()` / `get_uri()` failures are caught
(`except ValueError`) and replaced by the empty string; a pair is then
written only when its value is truthy (`if value:`).  The
`pipeline_user` pair at the head is the one `put` call of the source
that does not pass the `env=self.name` argument. -/
def Environment.save_config (e : Environment) (cmd_names : List String) :
    List PutCall :=
  let head :=
    if optTruthy e.pipeline_user.arn then
      [⟨cmd_names, "parameters", PIPELINE_USER, e.pipeline_user.arn.getD "", none⟩]
    else []
  let environment_specific_configs : List (String × Option String) :=
    [(PIPELINE_EXECUTION_ROLE, e.pipeline_execution_role.arn),
     (CLOUDFORMATION_EXECUTION_ROLE, e.cloudformation_execution_role.arn),
     (ARTIFACTS_BUCKET, some (bucketNameOrEmpty e)),
     (ECR_IMAGE_REPOSITORY, some (repoUriOrEmpty e)),
     (REGION, e.aws_region)]
  head ++ environment_specific_configs.filterMap fun kv =>
    if optTruthy kv.2 then
      some ⟨cmd_names, "parameters", kv.1, kv.2.getD "", some e.name⟩
    else none

/-- `Environment.save_config_safe` over an arbitrary behaviour of the
underlying `save_config` call, modelled as an `Except`: the
`try ... except Exception: pass` swallows every error. -/
def save_config_safe (underlying : Except String (List PutCall)) :
    Except String Unit :=
  match underlying with
  | Except.ok _ => Except.ok ()
  | Except.error _ => Except.ok ()

/-- Result of one `Environment.bootstrap` run: the returned boolean, the
updated instance, how many times the provisioning backend was invoked
and with which parameter overrides, and how many secret lookups were
performed. -/
structure BootstrapResult where
  result : Bool
  env : Environment
  backendCalls : Nat
  backendParams : Option (List (String × String))
  secretLookups : Nat
deriving Repr, DecidableEq

/-- `Environment.bootstrap`.  `confirmed` is the answer the user gives
to `click.confirm` when `confirm_changeset` is set; `output` is the
`StackOutput.get` lookup of the provisioning backend's output mapping;
`secretPair` is the secrets-backend lookup returning the
access-key-id / secret-access-key pair. -/
def Environment.bootstrap (e : Environment) (confirm_changeset confirmed : Bool)
    (output : String → Option String) (secretPair : String → String × String) :
    BootstrapResult :=
  if e.did_user_provide_all_required_resources then
    ⟨true, e, 0, none, 0⟩
  else if confirm_changeset && !confirmed then
    ⟨false, e, 0, none, 0⟩
  else
    let params : List (String × String) :=
      [("PipelineUserArn", e.pipeline_user.arn.getD ""),
       ("PipelineExecutionRoleArn", e.pipeline_execution_role.arn.getD ""),
       ("CloudFormationExecutionRoleArn", e.cloudformation_execution_role.arn.getD ""),
       ("ArtifactsBucketArn", e.artifacts_bucket.arn.getD ""),
       ("CreateImageRepository", if e.create_image_repository then "true" else "false"),
       ("ImageRepositoryArn", e.image_repository.arn.getD "")]
    let sm := output "PipelineUserSecretKey"
    let pu0 : IAMUser := { e.pipeline_user with arn := output "PipelineUser" }
    let pu : IAMUser :=
      if optTruthy sm then
        let pair := secretPair (sm.getD "")
        { pu0 with access_key_id := some pair.1, secret_access_key := some pair.2 }
      else pu0
    ⟨true,
     { e with
       pipeline_user := pu
       pipeline_execution_role :=
         { e.pipeline_execution_role with arn := output "PipelineExecutionRole" }
       cloudformation_execution_role :=
         { e.cloudformation_execution_role with arn := output "CloudFormationExecutionRole" }
       artifacts_bucket := { e.artifacts_bucket with arn := output "ArtifactsBucket" }
       image_repository := { e.image_repository with arn := output "ImageRepository" } },
     1, some params, if optTruthy sm then 1 else 0⟩

/-- The character class `[0-9a-zA-Z]` of the sanitizing regular
expression in `Environment._get_stack_name`. -/
def isAlnumAscii (c : Char) : Bool :=
  (Char.ofNat 48 ≤ c && c ≤ Char.ofNat 57)
  || (Char.ofNat 65 ≤ c && c ≤ Char.ofNat 90)
  || (Char.ofNat 97 ≤ c && c ≤ Char.ofNat 122)

/-- `re.sub("[^0-9a-zA-Z]+", "-", _)` on a character list, processed
left to right; the flag records whether the previous character belonged
to a (already replaced) run of characters outside `[0-9a-zA-Z]`. -/
def regexSubAux : Bool → List Char → List Char
  | _, [] => []
  | inRun, c :: rest =>
    if isAlnumAscii c then c :: regexSubAux false rest
    else if inRun then regexSubAux true rest
    else Char.ofNat 45 :: regexSubAux true rest

/-- `re.sub("[^0-9a-zA-Z]+", "-", _)` on a character list: each maximal
run of characters outside `[0-9a-zA-Z]` is replaced by one hyphen. -/
def regexSub (l : List Char) : List Char :=
  regexSubAux false l

/-- `Environment._get_stack_name`: sanitize the environment name and
wrap it between `STACK_NAME_PREFIX = "aws-sam-cli-managed"` and
`ENVIRONMENT_RESOURCES_STACK_NAME_SUFFIX = "pipeline-resources"`. -/
def Environment.get_stack_name (e : Environment) : String :=
  "aws-sam-cli-managed" ++ "-" ++ String.mk (regexSub e.name.data) ++ "-"
    ++ "pipeline-resources"

/-- Collapsing pass of the spec-side sanitization: every maximal run of
hyphens is collapsed to a single hyphen; the flag records whether the
previous character was a hyphen. -/
def collapseDashesAux : Bool → List Char → List Char
  | _, [] => []
  | prevDash, c :: rest =>
    if c = Char.ofNat 45 then
      if prevDash then collapseDashesAux true rest
      else Char.ofNat 45 :: collapseDashesAux true rest
    else c :: collapseDashesAux false rest

/-- Spec-side sanitization, written from the spec sentence: every
character is kept if alphanumeric and replaced by a hyphen otherwise,
and every maximal run of hyphens so produced (one run per maximal run
of non-alphanumeric characters, since alphanumeric characters are never
hyphens) is collapsed to a single hyphen. -/
def sanitizeSpec (l : List Char) : List Char :=
  collapseDashesAux false (l.map fun c => if isAlnumAscii c then c else Char.ofNat 45)

/-- Claim-side list for C8, written from the claim text: each
descriptor key with its value, the derived values (bucket name,
repository URI) computed as in §4.1 with the empty string on failure. -/
def descriptorValues (e : Environment) : List (String × String) :=
  [(PIPELINE_USER, e.pipeline_user.arn.getD ""),
   (PIPELINE_EXECUTION_ROLE, e.pipeline_execution_role.arn.getD ""),
   (CLOUDFORMATION_EXECUTION_ROLE, e.cloudformation_execution_role.arn.getD ""),
   (ARTIFACTS_BUCKET, bucketNameOrEmpty e),
   (ECR_IMAGE_REPOSITORY, repoUriOrEmpty e),
   (REGION, e.aws_region.getD "")]

/-- Concrete environment with every required resource user-provided
(`create_image_repository = false`, no repository ARN). -/
def envAll : Environment :=
  Environment.make "dev" none none
    (some "arn:aws:iam::123456789012:user/pu")
    (some "arn:aws:iam::123456789012:role/pr")
    (some "arn:aws:iam::123456789012:role/cfr")
    (some "arn:aws:s3:::my-bucket") false none

/-- Concrete environment missing the pipeline user (so bootstrap must
provision). -/
def envPart : Environment :=
  Environment.make "myenv" none (some "us-east-1") none
    (some "arn:aws:iam::123456789012:role/pr")
    (some "arn:aws:iam::123456789012:role/cfr")
    (some "arn:aws:s3:::my-bucket") false none

/-- Concrete environment whose artifacts-bucket and image-repository
identifiers fail `name()` / `get_uri()` parsing. -/
def envBad : Environment :=
  Environment.make "myenv" none (some "us-east-1")
    (some "arn:aws:iam::123456789012:user/pu")
    (some "arn:aws:iam::123456789012:role/pr") none
    (some "not-an-arn") false (some "also-not-an-arn")

/-- Backend output mapping with no outputs at all. -/
def outNone : String → Option String := fun _ => none

/-- Backend output mapping whose `PipelineUserSecretKey` output is the
empty string. -/
def outEmptySecret : String → Option String :=
  fun k => if k == "PipelineUserSecretKey" then some "" else none

/-- Backend output mapping carrying a pipeline user and a non-empty
secret reference. -/
def outSecret : String → Option String :=
  fun k =>
    if k == "PipelineUserSecretKey" then some "arn:aws:secretsmanager:sec"
    else if k == "PipelineUser" then some "arn:aws:iam::123456789012:user/new"
    else none

/-- Concrete secrets-backend lookup. -/
def secW : String → String × String := fun _ => ("AKIA123", "superSecret")

lemma optTruthy_eq_getD (o : Option String) :
    optTruthy o = !(o.getD "").isEmpty := by
  cases o <;> rfl

lemma regexSubAux_eq_collapse (l : List Char) : ∀ b : Bool,
    regexSubAux b l
      = collapseDashesAux b (l.map fun c => if isAlnumAscii c then c else Char.ofNat 45) := by
  induction l with
  | nil => intro b; rfl
  | cons c rest ih =>
    intro b
    by_cases h : isAlnumAscii c = true
    · have hc : ¬ c = Char.ofNat 45 := by
        intro he; rw [he] at h; exact absurd h (by decide)
      simp [regexSubAux, collapseDashesAux, h, hc, ih]
    · cases b <;> simp [regexSubAux, collapseDashesAux, h, ih]

/-- C1: `did_user_provide_all_required_resources()` is true iff every
participating descriptor has `is_user_provided = true`, where the
image-repository descriptor participates only if
`create_image_repository` is true or its identifier is already set. -/
theorem C1_did_user_provide_iff (e : Environment) :
    e.did_user_provide_all_required_resources = true ↔ allParticipatingProvided e := by
  cases hc : e.create_image_repository
    <;> cases ht : optTruthy e.image_repository.arn
    <;> simp [Environment.did_user_provide_all_required_resources,
          Environment.get_resources, allParticipatingProvided, hc, ht, and_assoc]

/-- C2: when every required resource is already user-provided,
`bootstrap` returns true without invoking the provisioning backend and
without changing the instance; in particular a repeated call on such an
instance is a no-op returning true. -/
theorem C2_bootstrap_noop (e : Environment) (confirm_changeset confirmed : Bool)
    (output : String → Option String) (secretPair : String → String × String)
    (h : e.did_user_provide_all_required_resources = true) :
    e.bootstrap confirm_changeset confirmed output secretPair = ⟨true, e, 0, none, 0⟩ := by
  simp [Environment.bootstrap, h]

theorem C2_bootstrap_noop_witness :
    envAll.did_user_provide_all_required_resources = true
    ∧ envAll.bootstrap true true outNone secW = ⟨true, envAll, 0, none, 0⟩ :=
  ⟨by decide, C2_bootstrap_noop envAll true true outNone secW (by decide)⟩

/-- C4: with at least one resource not user-provided, `bootstrap` with
`confirm_changeset = true` and a declined confirmation returns false
with no side effects: no backend call and an unchanged instance. -/
theorem C4_decline_no_side_effects (e : Environment)
    (output : String → Option String) (secretPair : String → String × String)
    (h : e.did_user_provide_all_required_resources = false) :
    e.bootstrap true false output secretPair = ⟨false, e, 0, none, 0⟩ := by
  simp [Environment.bootstrap, h]

theorem C4_decline_no_side_effects_witness :
    envPart.did_user_provide_all_required_resources = false
    ∧ envPart.bootstrap true false outNone secW = ⟨false, envPart, 0, none, 0⟩ :=
  ⟨by decide, C4_decline_no_side_effects envPart outNone secW (by decide)⟩

/-- C9: `save_config_safe` returns normally whatever the underlying
`save_config` call does, swallowing any raised exception. -/
theorem C9_save_config_safe_total (u : Except String (List PutCall)) :
    save_config_safe u = Except.ok () := by
  cases u <;> rfl

/-- C7: the stack name is the fixed prefix, a hyphen, the environment
name with every maximal run of non-alphanumeric characters replaced by
a single hyphen, a hyphen, and the fixed suffix; on the name
`"My Env!"` this yields
`"aws-sam-cli-managed-My-Env--pipeline-resources"`. -/
theorem C7_stack_name :
    (∀ e : Environment, e.get_stack_name
      = "aws-sam-cli-managed" ++ "-" ++ String.mk (sanitizeSpec e.name.data)
        ++ "-" ++ "pipeline-resources")
    ∧ (Environment.make "My Env!" none none none none none none false
        none).get_stack_name = "aws-sam-cli-managed-My-Env--pipeline-resources" := by
  constructor
  · intro e
    unfold Environment.get_stack_name regexSub sanitizeSpec
    rw [regexSubAux_eq_collapse]
  · decide

/-- C5: whenever `bootstrap` proceeds past the confirmation step, the
provisioning backend is invoked exactly once, with the parameter
overrides holding every descriptor's current identifier (empty string
when unset) plus the create/skip flag of the image repository. -/
theorem C5_backend_invocation (e : Environment) (confirm_changeset confirmed : Bool)
    (output : String → Option String) (secretPair : String → String × String)
    (h1 : e.did_user_provide_all_required_resources = false)
    (h2 : (confirm_changeset && !confirmed) = false) :
    (e.bootstrap confirm_changeset confirmed output secretPair).backendCalls = 1
    ∧ (e.bootstrap confirm_changeset confirmed output secretPair).backendParams
      = some [("PipelineUserArn", e.pipeline_user.arn.getD ""),
              ("PipelineExecutionRoleArn", e.pipeline_execution_role.arn.getD ""),
              ("CloudFormationExecutionRoleArn", e.cloudformation_execution_role.arn.getD ""),
              ("ArtifactsBucketArn", e.artifacts_bucket.arn.getD ""),
              ("CreateImageRepository", if e.create_image_repository then "true" else "false"),
              ("ImageRepositoryArn", e.image_repository.arn.getD "")] := by
  constructor <;> simp [Environment.bootstrap, h1, h2]

theorem C5_backend_invocation_witness :
    envPart.did_user_provide_all_required_resources = false
    ∧ (true && !true) = false
    ∧ (envPart.bootstrap true true outNone secW).backendCalls = 1
    ∧ (envPart.bootstrap true true outNone secW).backendParams
      = some [("PipelineUserArn", envPart.pipeline_user.arn.getD ""),
              ("PipelineExecutionRoleArn", envPart.pipeline_execution_role.arn.getD ""),
              ("CloudFormationExecutionRoleArn", envPart.cloudformation_execution_role.arn.getD ""),
              ("ArtifactsBucketArn", envPart.artifacts_bucket.arn.getD ""),
              ("CreateImageRepository", if envPart.create_image_repository then "true" else "false"),
              ("ImageRepositoryArn", envPart.image_repository.arn.getD "")] :=
  ⟨by decide, by decide,
    C5_backend_invocation envPart true true outNone secW (by decide) (by decide)⟩

/-- C10: once the backend call succeeds, every descriptor's identifier
is unconditionally overwritten with the value of its recognized output
key (becoming unset when that key is absent, even if supplied at
construction), while `name`, `aws_profile`, `aws_region` and
`create_image_repository` are unchanged. -/
theorem C10_outputs_overwrite (e : Environment) (confirm_changeset confirmed : Bool)
    (output : String → Option String) (secretPair : String → String × String)
    (h1 : e.did_user_provide_all_required_resources = false)
    (h2 : (confirm_changeset && !confirmed) = false) :
    (e.bootstrap confirm_changeset confirmed output secretPair).result = true
    ∧ (e.bootstrap confirm_changeset confirmed output secretPair).env.pipeline_user.arn
      = output "PipelineUser"
    ∧ (e.bootstrap confirm_changeset confirmed output secretPair).env.pipeline_execution_role.arn
      = output "PipelineExecutionRole"
    ∧ (e.bootstrap confirm_changeset confirmed output
        secretPair).env.cloudformation_execution_role.arn
      = output "CloudFormationExecutionRole"
    ∧ (e.bootstrap confirm_changeset confirmed output secretPair).env.artifacts_bucket.arn
      = output "ArtifactsBucket"
    ∧ (e.bootstrap confirm_changeset confirmed output secretPair).env.image_repository.arn
      = output "ImageRepository"
    ∧ (e.bootstrap confirm_changeset confirmed output secretPair).env.name = e.name
    ∧ (e.bootstrap confirm_changeset confirmed output secretPair).env.aws_profile = e.aws_profile
    ∧ (e.bootstrap confirm_changeset confirmed output secretPair).env.aws_region = e.aws_region
    ∧ (e.bootstrap confirm_changeset confirmed output
        secretPair).env.create_image_repository = e.create_image_repository := by
  cases hs : optTruthy (output "PipelineUserSecretKey")
    <;> refine ⟨?_, ?_, ?_, ?_, ?_, ?_, ?_, ?_, ?_, ?_⟩
    <;> simp [Environment.bootstrap, h1, h2, hs]

theorem C10_outputs_overwrite_witness :
    envPart.did_user_provide_all_required_resources = false
    ∧ (false && !false) = false
    ∧ envPart.artifacts_bucket.arn = some "arn:aws:s3:::my-bucket"
    ∧ (envPart.bootstrap false false outNone secW).result = true
    ∧ (envPart.bootstrap false false outNone secW).env.pipeline_user.arn
      = outNone "PipelineUser"
    ∧ (envPart.bootstrap false false outNone secW).env.artifacts_bucket.arn
      = outNone "ArtifactsBucket"
    ∧ (envPart.bootstrap false false outNone secW).env.name = envPart.name :=
  ⟨by decide, by decide, by decide,
    (C10_outputs_overwrite envPart false false outNone secW (by decide) (by decide)).1,
    (C10_outputs_overwrite envPart false false outNone secW (by decide) (by decide)).2.1,
    (C10_outputs_overwrite envPart false false outNone secW (by decide) (by decide)).2.2.2.2.1,
    (C10_outputs_overwrite envPart false false outNone secW (by decide) (by decide)).2.2.2.2.2.2.1⟩

theorem C6_secret_lookup_counterexample :
    (outEmptySecret "PipelineUserSecretKey").isSome = true
    ∧ (envPart.bootstrap false false outEmptySecret secW).secretLookups = 0
    ∧ (envPart.bootstrap false false outEmptySecret
        secW).env.pipeline_user.access_key_id = none := by
  refine ⟨rfl, ?_, ?_⟩ <;> decide

/-- C6 (amended): after the backend call, if the output mapping holds a
non-empty `PipelineUserSecretKey` value then exactly one secrets lookup
is performed and its access-key-id / secret-access-key pair is stored
on the pipeline-user descriptor; if that output is absent or empty, no
lookup occurs and the credential fields are unchanged. -/
theorem C6_secret_lookup (e : Environment) (confirm_changeset confirmed : Bool)
    (output : String → Option String) (secretPair : String → String × String)
    (h1 : e.did_user_provide_all_required_resources = false)
    (h2 : (confirm_changeset && !confirmed) = false) :
    (optTruthy (output "PipelineUserSecretKey") = true →
      (e.bootstrap confirm_changeset confirmed output secretPair).secretLookups = 1
      ∧ (e.bootstrap confirm_changeset confirmed output
          secretPair).env.pipeline_user.access_key_id
        = some (secretPair ((output "PipelineUserSecretKey").getD "")).1
      ∧ (e.bootstrap confirm_changeset confirmed output
          secretPair).env.pipeline_user.secret_access_key
        = some (secretPair ((output "PipelineUserSecretKey").getD "")).2)
    ∧ (optTruthy (output "PipelineUserSecretKey") = false →
      (e.bootstrap confirm_changeset confirmed output secretPair).secretLookups = 0
      ∧ (e.bootstrap confirm_changeset confirmed output
          secretPair).env.pipeline_user.access_key_id = e.pipeline_user.access_key_id
      ∧ (e.bootstrap confirm_changeset confirmed output
          secretPair).env.pipeline_user.secret_access_key
        = e.pipeline_user.secret_access_key) := by
  constructor <;> intro hs
    <;> refine ⟨?_, ?_, ?_⟩
    <;> simp [Environment.bootstrap, h1, h2, hs]

theorem C6_secret_lookup_witness :
    envPart.did_user_provide_all_required_resources = false
    ∧ (false && !false) = false
    ∧ optTruthy (outSecret "PipelineUserSecretKey") = true
    ∧ (envPart.bootstrap false false outSecret secW).secretLookups = 1
    ∧ (envPart.bootstrap false false outSecret secW).env.pipeline_user.access_key_id
      = some (secW ((outSecret "PipelineUserSecretKey").getD "")).1
    ∧ (envPart.bootstrap false false outSecret secW).env.pipeline_user.secret_access_key
      = some (secW ((outSecret "PipelineUserSecretKey").getD "")).2 :=
  ⟨by decide, by decide, by decide,
    ((C6_secret_lookup envPart false false outSecret secW (by decide) (by decide)).1
      (by decide)).1,
    ((C6_secret_lookup envPart false false outSecret secW (by decide) (by decide)).1
      (by decide)).2.1,
    ((C6_secret_lookup envPart false false outSecret secW (by decide) (by decide)).1
      (by decide)).2.2⟩

lemma mem_ite_singleton {p x : PutCall} {b : Bool}
    (h : p ∈ (if b = true then [x] else [])) : p = x := by
  cases b <;> simp_all

lemma map_ite_singleton {α β : Type} (f : α → β) (b : Bool) (x : α) :
    (if b = true then [x] else []).map f = if b = true then [f x] else [] := by
  cases b <;> simp

lemma filter_six {α : Type} (p : α → Bool) (v1 v2 v3 v4 v5 v6 : α) :
    List.filter p [v1, v2, v3, v4, v5, v6]
      = (if p v1 = true then [v1] else []) ++ (if p v2 = true then [v2] else [])
        ++ (if p v3 = true then [v3] else []) ++ (if p v4 = true then [v4] else [])
        ++ (if p v5 = true then [v5] else []) ++ (if p v6 = true then [v6] else []) := by
  cases h1 : p v1 <;> cases h2 : p v2 <;> cases h3 : p v3 <;> cases h4 : p v4
    <;> cases h5 : p v5 <;> cases h6 : p v6
    <;> simp [List.filter, h1, h2, h3, h4, h5, h6]

lemma save_config_eq (e : Environment) (c : List String) :
    e.save_config c =
      (if optTruthy e.pipeline_user.arn then
        [⟨c, "parameters", PIPELINE_USER, e.pipeline_user.arn.getD "", none⟩] else [])
      ++ (if optTruthy e.pipeline_execution_role.arn then
        [⟨c, "parameters", PIPELINE_EXECUTION_ROLE,
          e.pipeline_execution_role.arn.getD "", some e.name⟩] else [])
      ++ (if optTruthy e.cloudformation_execution_role.arn then
        [⟨c, "parameters", CLOUDFORMATION_EXECUTION_ROLE,
          e.cloudformation_execution_role.arn.getD "", some e.name⟩] else [])
      ++ (if optTruthy (some (bucketNameOrEmpty e)) then
        [⟨c, "parameters", ARTIFACTS_BUCKET, bucketNameOrEmpty e, some e.name⟩] else [])
      ++ (if optTruthy (some (repoUriOrEmpty e)) then
        [⟨c, "parameters", ECR_IMAGE_REPOSITORY, repoUriOrEmpty e, some e.name⟩] else [])
      ++ (if optTruthy e.aws_region then
        [⟨c, "parameters", REGION, e.aws_region.getD "", some e.name⟩] else []) := by
  unfold Environment.save_config
  cases h1 : optTruthy e.pipeline_user.arn
    <;> cases h2 : optTruthy e.pipeline_execution_role.arn
    <;> cases h3 : optTruthy e.cloudformation_execution_role.arn
    <;> cases h4 : optTruthy (some (bucketNameOrEmpty e))
    <;> cases h5 : optTruthy (some (repoUriOrEmpty e))
    <;> cases h6 : optTruthy e.aws_region
    <;> simp [List.filterMap, h1, h2, h3, h4, h5, h6]

theorem C3_empty_value_counterexample :
    envBad.artifacts_bucket.name = Except.error "InvalidIdentifierError"
    ∧ envBad.image_repository.get_uri = Except.error "InvalidIdentifierError"
    ∧ (¬ ∃ p ∈ envBad.save_config ["pipeline", "bootstrap"], p.key = ARTIFACTS_BUCKET)
    ∧ (¬ ∃ p ∈ envBad.save_config ["pipeline", "bootstrap"], p.key = ECR_IMAGE_REPOSITORY) := by
  refine ⟨rfl, rfl, ?_, ?_⟩ <;> decide

/-- C3 (amended): when a descriptor's identifier fails `name()` /
`get_uri()` parsing, `save_config` substitutes the empty string, which
its non-empty filter then drops, so no pair at all is written for that
key; no error propagates and the remaining descriptors' pairs are still
written. -/
theorem C3_best_effort_persistence (e : Environment) (c : List String) :
    (e.artifacts_bucket.name = Except.error "InvalidIdentifierError" →
      ((e.save_config c).all fun p => !(p.key == ARTIFACTS_BUCKET)) = true)
    ∧ (e.image_repository.get_uri = Except.error "InvalidIdentifierError" →
      ((e.save_config c).all fun p => !(p.key == ECR_IMAGE_REPOSITORY)) = true)
    ∧ (optTruthy e.pipeline_user.arn = true →
      (⟨c, "parameters", PIPELINE_USER, e.pipeline_user.arn.getD "", none⟩ : PutCall)
        ∈ e.save_config c)
    ∧ (optTruthy e.pipeline_execution_role.arn = true →
      (⟨c, "parameters", PIPELINE_EXECUTION_ROLE, e.pipeline_execution_role.arn.getD "",
        some e.name⟩ : PutCall) ∈ e.save_config c)
    ∧ (optTruthy e.cloudformation_execution_role.arn = true →
      (⟨c, "parameters", CLOUDFORMATION_EXECUTION_ROLE,
        e.cloudformation_execution_role.arn.getD "", some e.name⟩ : PutCall)
        ∈ e.save_config c)
    ∧ (optTruthy e.aws_region = true →
      (⟨c, "parameters", REGION, e.aws_region.getD "", some e.name⟩ : PutCall)
        ∈ e.save_config c) := by
  rw [save_config_eq]
  refine ⟨?_, ?_, ?_, ?_, ?_, ?_⟩
  · intro h
    have hb : bucketNameOrEmpty e = "" := by rw [bucketNameOrEmpty, h]
    have hbf : optTruthy (some (bucketNameOrEmpty e)) = false := by rw [hb]; rfl
    cases h1 : optTruthy e.pipeline_user.arn
      <;> cases h2 : optTruthy e.pipeline_execution_role.arn
      <;> cases h3 : optTruthy e.cloudformation_execution_role.arn
      <;> cases h5 : optTruthy (some (repoUriOrEmpty e))
      <;> cases h6 : optTruthy e.aws_region
      <;> simp [h1, h2, h3, h5, h6, hbf, PIPELINE_USER,
            PIPELINE_EXECUTION_ROLE, CLOUDFORMATION_EXECUTION_ROLE,
            ARTIFACTS_BUCKET, ECR_IMAGE_REPOSITORY, REGION]
  · intro h
    have hu : repoUriOrEmpty e = "" := by rw [repoUriOrEmpty, h]
    have huf : optTruthy (some (repoUriOrEmpty e)) = false := by rw [hu]; rfl
    cases h1 : optTruthy e.pipeline_user.arn
      <;> cases h2 : optTruthy e.pipeline_execution_role.arn
      <;> cases h3 : optTruthy e.cloudformation_execution_role.arn
      <;> cases h4 : optTruthy (some (bucketNameOrEmpty e))
      <;> cases h6 : optTruthy e.aws_region
      <;> simp [h1, h2, h3, h4, h6, huf, PIPELINE_USER,
            PIPELINE_EXECUTION_ROLE, CLOUDFORMATION_EXECUTION_ROLE,
            ARTIFACTS_BUCKET, ECR_IMAGE_REPOSITORY, REGION]
  · intro h1; simp [h1]
  · intro h2; simp [h2]
  · intro h3; simp [h3]
  · intro h6; simp [h6]

theorem C3_best_effort_persistence_witness :
    envBad.artifacts_bucket.name = Except.error "InvalidIdentifierError"
    ∧ envBad.image_repository.get_uri = Except.error "InvalidIdentifierError"
    ∧ optTruthy envBad.pipeline_user.arn = true
    ∧ optTruthy envBad.pipeline_execution_role.arn = true
    ∧ ((envBad.save_config ["x"]).all fun p => !(p.key == ARTIFACTS_BUCKET)) = true
    ∧ ((envBad.save_config ["x"]).all fun p => !(p.key == ECR_IMAGE_REPOSITORY)) = true
    ∧ (⟨["x"], "parameters", PIPELINE_USER, envBad.pipeline_user.arn.getD "", none⟩ : PutCall)
        ∈ envBad.save_config ["x"]
    ∧ (⟨["x"], "parameters", PIPELINE_EXECUTION_ROLE,
        envBad.pipeline_execution_role.arn.getD "", some envBad.name⟩ : PutCall)
        ∈ envBad.save_config ["x"] :=
  ⟨rfl, rfl, by decide, by decide,
    (C3_best_effort_persistence envBad ["x"]).1 rfl,
    (C3_best_effort_persistence envBad ["x"]).2.1 rfl,
    (C3_best_effort_persistence envBad ["x"]).2.2.1 (by decide),
    (C3_best_effort_persistence envBad ["x"]).2.2.2.1 (by decide)⟩

theorem C8_scoping_counterexample :
    ∃ p, p ∈ envBad.save_config ["pipeline", "bootstrap"]
      ∧ p.sect = "parameters" ∧ p.env ≠ some envBad.name := by
  refine ⟨⟨["pipeline", "bootstrap"], "parameters", PIPELINE_USER,
    "arn:aws:iam::123456789012:user/pu", none⟩, ?_, rfl, by decide⟩
  decide

/-- C8 (amended): every pair `save_config` writes goes under section
`"parameters"` at the `cmd_names` path; the pairs written through the
environment-specific loop are scoped by the environment name, but the
`pipeline_user` pair is written without the environment scope; and a
pair is written for each descriptor value exactly when that value is
non-empty, in the source's fixed order. -/
theorem C8_section_scope_and_filter (e : Environment) (c : List String) :
    (∀ p, p ∈ e.save_config c →
      p.sect = "parameters" ∧ p.cmd_names = c
      ∧ (p.key = PIPELINE_USER → p.env = none)
      ∧ (p.key ≠ PIPELINE_USER → p.env = some e.name))
    ∧ (e.save_config c).map (fun p => (p.key, p.value))
      = (descriptorValues e).filter fun kv => !kv.2.isEmpty := by
  constructor
  · intro p hp
    rw [save_config_eq] at hp
    simp only [List.mem_append] at hp
    rcases hp with ((((hp | hp) | hp) | hp) | hp) | hp
      <;> obtain rfl := mem_ite_singleton hp
      <;> simp [PIPELINE_USER, PIPELINE_EXECUTION_ROLE,
            CLOUDFORMATION_EXECUTION_ROLE, ARTIFACTS_BUCKET,
            ECR_IMAGE_REPOSITORY, REGION]
  · rw [save_config_eq]
    simp [descriptorValues, List.map_append, map_ite_singleton, filter_six,
      optTruthy_eq_getD]
    split_ifs <;> simp

theorem C8_section_scope_and_filter_witness :
    (⟨["x"], "parameters", PIPELINE_EXECUTION_ROLE,
      envBad.pipeline_execution_role.arn.getD "", some envBad.name⟩ : PutCall)
        ∈ envBad.save_config ["x"]
    ∧ ((⟨["x"], "parameters", PIPELINE_EXECUTION_ROLE,
        envBad.pipeline_execution_role.arn.getD "", some envBad.name⟩ : PutCall).sect
          = "parameters"
      ∧ (⟨["x"], "parameters", PIPELINE_EXECUTION_ROLE,
          envBad.pipeline_execution_role.arn.getD "", some envBad.name⟩ : PutCall).cmd_names
          = ["x"]
      ∧ ((⟨["x"], "parameters", PIPELINE_EXECUTION_ROLE,
          envBad.pipeline_execution_role.arn.getD "", some envBad.name⟩ : PutCall).key
          = PIPELINE_USER →
        (⟨["x"], "parameters", PIPELINE_EXECUTION_ROLE,
          envBad.pipeline_execution_role.arn.getD "", some envBad.name⟩ : PutCall).env = none)
      ∧ ((⟨["x"], "parameters", PIPELINE_EXECUTION_ROLE,
          envBad.pipeline_execution_role.arn.getD "", some envBad.name⟩ : PutCall).key
          ≠ PIPELINE_USER →
        (⟨["x"], "parameters", PIPELINE_EXECUTION_ROLE,
          envBad.pipeline_execution_role.arn.getD "", some envBad.name⟩ : PutCall).env
          = some envBad.name))
    ∧ (envBad.save_config ["x"]).map (fun p => (p.key, p.value))
      = (descriptorValues envBad).filter fun kv => !kv.2.isEmpty :=
  ⟨by decide,
    (C8_section_scope_and_filter envBad ["x"]).1 _ (by decide),
    (C8_section_scope_and_filter envBad ["x"]).2⟩
